import Mathlib

/-!
Verification of the feature-transformation pipeline of the occupancy
prediction service (`src/api/transformers.py`, `src/api/model.py`,
`src/api/main.py`).

Numeric dataframe columns are modelled as lists of `FVal α`, where `α` is a
linear ordered field (`ℚ` where the claims are decidable, `ℝ` where the
BoxCox transform is involved).  `FVal` mirrors the IEEE-754 special values
produced by numpy/pandas arithmetic: `num x` is a finite value, `nan` is NaN
and `inf`/`ninf` are the two infinities.  Exact field arithmetic stands in
for rounded float arithmetic: every statement below is about the structure
of the computation (which entry is zero, NaN or infinite, which column feeds
which), not about rounding.  Rationals carry no signed zero, so the `-0.0`
corner of float division does not arise in the modelled computations.
-/

/-- One pandas/numpy floating-point cell: a finite value or an IEEE special. -/
inductive FVal (α : Type) where
  | num (x : α)
  | nan
  | inf
  | ninf
  deriving DecidableEq

/-- IEEE / numpy subtraction on cells, as performed by `Series.__sub__`:
NaN propagates, `finite - ∞ = -∞`, `∞ - ∞ = NaN`. -/
def FVal.sub {α : Type} [Sub α] : FVal α → FVal α → FVal α
  | nan, _ => nan
  | _, nan => nan
  | num a, num b => num (a - b)
  | num _, inf => ninf
  | num _, ninf => inf
  | inf, num _ => inf
  | ninf, num _ => ninf
  | inf, inf => nan
  | inf, ninf => inf
  | ninf, inf => ninf
  | ninf, ninf => nan

/-- IEEE / numpy division on cells, as performed by `Series.__truediv__`:
NaN propagates, `x / 0` is `±∞` for `x ≠ 0` and NaN for `x = 0`
(pandas evaluates `np.true_divide` with errors ignored, so a zero
denominator yields an infinity or NaN, never an exception),
`finite / ±∞ = 0`, `±∞ / ±∞ = NaN`. -/
def FVal.div {α : Type} [LinearOrderedField α] : FVal α → FVal α → FVal α
  | nan, _ => nan
  | _, nan => nan
  | num a, num b =>
      if b = 0 then (if a = 0 then nan else if 0 < a then inf else ninf)
      else num (a / b)
  | num _, inf => num 0
  | num _, ninf => num 0
  | inf, num b => if b < 0 then ninf else inf
  | ninf, num b => if b < 0 then inf else ninf
  | inf, inf => nan
  | inf, ninf => nan
  | ninf, inf => nan
  | ninf, ninf => nan

/-- `DataFrame.fillna(0)` on one column: NaN cells become `0`; infinities are
not missing values and are left untouched. -/
def fillna0 {α : Type} [Zero α] : List (FVal α) → List (FVal α) :=
  List.map fun v => match v with | .nan => .num 0 | v => v

/-- `Series.shift(1)`: the first cell becomes NaN, every other cell takes the
value of its predecessor; the length is preserved. -/
def shift1 {α : Type} : List (FVal α) → List (FVal α)
  | [] => []
  | x :: xs => .nan :: (x :: xs).dropLast

/-- Predecessor view of a column without a NaN padding value (used for the
datetime column, whose cells are timestamps, not floats): `none` marks the
absent predecessor of the first row. -/
def shiftO {β : Type} : List β → List (Option β)
  | [] => []
  | x :: xs => none :: ((x :: xs).dropLast.map some)

/-- `data['datetime'].diff(periods=1).dt.total_seconds() / 60`
(`src/api/transformers.py:36`): elapsed minutes between consecutive
timestamps, NaN on the first row (NaT elapsed time).  Timestamps are whole
seconds since the epoch. -/
def dtMinutes {α : Type} [LinearOrderedField α] (ts : List ℤ) : List (FVal α) :=
  List.zipWith
    (fun t p =>
      match p with
      | none => FVal.nan
      | some q => FVal.num (((t - q : ℤ) : α) / 60))
    ts (shiftO ts)

/-- `Timestamp.hour` for a timestamp of whole seconds since the epoch. -/
def hourOf (t : ℤ) : ℤ := (t.ediv 3600).emod 24

/-- `Timestamp.dayofweek` (Monday = 0) for a timestamp of whole seconds since
the epoch; 1970-01-01 was a Thursday, hence the offset 3. -/
def dayOfWeekOf (t : ℤ) : ℤ := ((t.ediv 86400) + 3).emod 7

/-- The input dataframe built by `OccupancyPredictor.predict`
(`src/api/model.py:66`): the six sensor columns, with `datetime` already
parsed to timestamps. -/
structure DataFrame (α : Type) where
  datetime : List ℤ
  Temperature : List (FVal α)
  Humidity : List (FVal α)
  Light : List (FVal α)
  CO2 : List (FVal α)
  HumidityRatio : List (FVal α)
  deriving DecidableEq

/-- The dataframe returned by `engineer_features`
(`src/api/transformers.py:21`): the surviving input columns (after
`drop(columns=['datetime'])`), the time features and the delta/rate
features.  The cyclical `hour_sin`/`hour_cos` columns are real-valued and
are modelled by the standalone `hour_sin_col`/`hour_cos_col` below. -/
structure FeatureFrame (α : Type) where
  Temperature : List (FVal α)
  Humidity : List (FVal α)
  Light : List (FVal α)
  CO2 : List (FVal α)
  HumidityRatio : List (FVal α)
  hour : List ℤ
  day_of_week : List ℤ
  co2_delta : List (FVal α)
  light_delta : List (FVal α)
  hr_delta : List (FVal α)
  temp_delta : List (FVal α)
  co2_rate : List (FVal α)
  light_rate : List (FVal α)
  hr_rate : List (FVal α)
  temp_rate : List (FVal α)
  deriving DecidableEq

/-- `engineer_features(data)` (`src/api/transformers.py:21-44`): time
features from `datetime`, first-difference (delta) features for CO2, Light,
HumidityRatio and Temperature, per-minute rate features as delta divided by
elapsed minutes, then `drop(columns=['datetime'])` and `fillna(0)` over the
whole frame. -/
def engineer_features {α : Type} [LinearOrderedField α] (data : DataFrame α) :
    FeatureFrame α :=
  let dt : List (FVal α) := dtMinutes data.datetime
  let co2_delta := List.zipWith FVal.sub data.CO2 (shift1 data.CO2)
  let light_delta := List.zipWith FVal.sub data.Light (shift1 data.Light)
  let hr_delta := List.zipWith FVal.sub data.HumidityRatio (shift1 data.HumidityRatio)
  let temp_delta := List.zipWith FVal.sub data.Temperature (shift1 data.Temperature)
  { Temperature := fillna0 data.Temperature
    Humidity := fillna0 data.Humidity
    Light := fillna0 data.Light
    CO2 := fillna0 data.CO2
    HumidityRatio := fillna0 data.HumidityRatio
    hour := data.datetime.map hourOf
    day_of_week := data.datetime.map dayOfWeekOf
    co2_delta := fillna0 co2_delta
    light_delta := fillna0 light_delta
    hr_delta := fillna0 hr_delta
    temp_delta := fillna0 temp_delta
    co2_rate := fillna0 (List.zipWith FVal.div co2_delta dt)
    light_rate := fillna0 (List.zipWith FVal.div light_delta dt)
    hr_rate := fillna0 (List.zipWith FVal.div hr_delta dt)
    temp_rate := fillna0 (List.zipWith FVal.div temp_delta dt) }

/-- The `hour_sin` column of `engineer_features`
(`src/api/transformers.py:26`). -/
noncomputable def hour_sin_col (ts : List ℤ) : List ℝ :=
  ts.map fun t => Real.sin (2 * Real.pi * (hourOf t : ℝ) / 24)

/-- The `hour_cos` column of `engineer_features`
(`src/api/transformers.py:27`). -/
noncomputable def hour_cos_col (ts : List ℤ) : List ℝ :=
  ts.map fun t => Real.cos (2 * Real.pi * (hourOf t : ℝ) / 24)

/-- `scipy.special.boxcox(x, lam)` on a positive finite input, in the real
number idealization of the C implementation: `log x` when `lam = 0` and
`expm1(lam * log x) / lam` otherwise. -/
noncomputable def boxcox (x lam : ℝ) : ℝ :=
  if lam = 0 then Real.log x else (Real.exp (lam * Real.log x) - 1) / lam

/-- `scipy.special.boxcox` lifted to a dataframe cell.  The ufunc is total:
`x < 0` gives NaN, `x = 0` gives `-1 / lam` for `lam > 0` and `-∞`
otherwise, and no exception is ever raised. -/
noncomputable def boxcoxF (lam : ℝ) : FVal ℝ → FVal ℝ
  | .num x =>
      if x < 0 then .nan
      else if x = 0 then (if 0 < lam then .num (-1 / lam) else .ninf)
      else .num (boxcox x lam)
  | .nan => .nan
  | .inf => if lam < 0 then .num (-1 / lam) else .inf
  | .ninf => .nan

/-- `transform_co2(data, trained_lambda=lam)` (`src/api/transformers.py:11`)
on the inference path, where a fitted lambda is supplied:
`scipy.stats.boxcox(data['CO2'], lmbda=lam)` returns
`scipy.special.boxcox(data['CO2'], lam)` elementwise before any input
validation runs, and the result overwrites the `CO2` column in place.  The
training-only branch (`trained_lambda is None`, which estimates lambda by
maximum likelihood) is out of scope here and not modelled. -/
noncomputable def transform_co2 (data : DataFrame ℝ) (trained_lambda : ℝ) :
    DataFrame ℝ :=
  { data with CO2 := data.CO2.map (boxcoxF trained_lambda) }

/-- The fitted `KBinsDiscretizer` bin lookup behind
`DiscretizeLight.transform` (`src/api/transformers.py:75-78`):
`np.searchsorted(interior_edges, light, side='right')`, i.e. the number of
interior bin boundaries less than or equal to the light value.  `bin_edges`
is the strictly increasing list of interior boundaries
(`discretizer.bin_edges_[0][1:-1]`). -/
def discretize {α : Type} [LinearOrder α] (light : α) (bin_edges : List α) : ℕ :=
  bin_edges.countP fun e => decide (e ≤ light)

/-- `DiscretizeLight.transform` (`src/api/transformers.py:75-78`): replaces
the `Light` column with the ordinal bin index of each cell.  The fitted
discretizer rejects non-finite input; only finite cells are mapped here and
the claims below only exercise finite light values. -/
def discretize_light {α : Type} [LinearOrderedField α] (bin_edges : List α)
    (data : DataFrame α) : DataFrame α :=
  { data with
      Light := data.Light.map fun v =>
        match v with
        | .num x => .num ((discretize x bin_edges : ℕ) : α)
        | v => v }

/-- The frozen parameters and final estimator of the serialized sklearn
pipeline: the trained BoxCox lambda, the trained interior bin edges, the
classifier decision function and, when the estimator supports it, its
probability function (`None` models the `AttributeError` fallback of
`src/api/model.py:75-80`). -/
structure Model where
  lambda : ℝ
  bin_edges : List ℝ
  clf : FeatureFrame ℝ → ℤ
  predict_proba : Option (FeatureFrame ℝ → ℤ → ℝ)

/-- Modelled from the spec: the composition order of the serialized sklearn
`Pipeline` object is not under `src/` (only the transformer classes are);
spec 4.4 and the `preprocessing_steps` list of `model_info`
(`src/api/main.py:163-173`) both give CO2 BoxCox, then Light discretization,
then feature engineering, in that fixed order, each stage as defined in
`src/api/transformers.py`. -/
noncomputable def pipeline_transform (m : Model) (data : DataFrame ℝ) :
    FeatureFrame ℝ :=
  engineer_features (discretize_light m.bin_edges (transform_co2 data m.lambda))

/-- A Python value stored in the request dict: enough structure to
distinguish null values, numbers and strings. -/
inductive PyVal where
  | none
  | num (x : ℚ)
  | str (s : String)
  deriving DecidableEq

/-- The request dict passed to `OccupancyPredictor.validate_input`. -/
abbrev PyDict := List (String × PyVal)

/-- The keys of the dict, the only thing `field not in input_data` can see. -/
def dictKeys (d : PyDict) : List String := d.map Prod.fst

/-- The `required_fields` list of `OccupancyPredictor.validate_input`
(`src/api/model.py:98`). -/
def required_fields : List String :=
  ["datetime", "Temperature", "Humidity", "Light", "CO2", "HumidityRatio"]

/-- `OccupancyPredictor.validate_input` (`src/api/model.py:88-104`): collects
the required fields absent from the dict, raises `ValueError` naming them if
any, returns `True` otherwise.  The raise is modelled as `Except.error`
carrying the missing-field list. -/
def validate_input (input_data : PyDict) : Except (List String) Bool :=
  let missing := required_fields.filter fun f => decide (f ∉ dictKeys input_data)
  if missing = [] then .ok true else .error missing

/-- The validated single reading handed to `OccupancyPredictor.predict`:
`datetime` already parsed to a timestamp, the five sensor values as floats. -/
structure PredictInput where
  datetime : ℤ
  Temperature : ℝ
  Humidity : ℝ
  Light : ℝ
  CO2 : ℝ
  HumidityRatio : ℝ

/-- `pd.DataFrame([input_data])` (`src/api/model.py:66-69`): the one-row
dataframe of a single reading. -/
def singleRowFrame (x : PredictInput) : DataFrame ℝ :=
  { datetime := [x.datetime]
    Temperature := [.num x.Temperature]
    Humidity := [.num x.Humidity]
    Light := [.num x.Light]
    CO2 := [.num x.CO2]
    HumidityRatio := [.num x.HumidityRatio] }

/-- `OccupancyPredictor.predict` (`src/api/model.py:50-86`): runs the frozen
pipeline on the one-row frame, takes the predicted class, and the class
probability when the estimator supports it (`None` otherwise, never
synthesized). -/
noncomputable def OccupancyPredictor.predict (m : Model) (x : PredictInput) :
    ℤ × Option ℝ :=
  let features := pipeline_transform m (singleRowFrame x)
  let pred := m.clf features
  (pred, m.predict_proba.map fun p => p features pred)

/-- The prediction part of the `/predict` handler
(`src/api/main.py:120-123`): label `1 ↦ "Person present"`,
anything else `↦ "Person not present"`, probability passed through. -/
noncomputable def predict_occupancy (m : Model) (x : PredictInput) :
    String × Option ℝ :=
  let r := OccupancyPredictor.predict m x
  ((if r.1 = 1 then "Person present" else "Person not present"), r.2)

/-! ### Helper lemmas shared by several claims -/

/-- NaN propagates through cell subtraction, whatever the left operand. -/
theorem FVal.sub_nan {α : Type} [Sub α] (v : FVal α) :
    FVal.sub v FVal.nan = FVal.nan := by
  cases v <;> rfl

/-- NaN propagates through cell division, whatever the left operand. -/
theorem FVal.div_nan {α : Type} [LinearOrderedField α] (v : FVal α) :
    FVal.div v FVal.nan = FVal.nan := by
  cases v <;> rfl

/-- Entry `i + 1` of a shifted column is entry `i` of the column. -/
theorem shift1_getElem_succ {α : Type} (xs : List (FVal α)) (i : ℕ)
    (h : i + 1 < xs.length) : (shift1 xs)[i + 1]? = xs[i]? := by
  cases xs with
  | nil => simp at h
  | cons x xs =>
    show (FVal.nan :: (x :: xs).dropLast)[i + 1]? = _
    rw [List.getElem?_cons_succ, List.dropLast_eq_take, List.getElem?_take_of_lt]
    simp only [List.length_cons] at h ⊢
    omega

/-- Entry `i + 1` of the predecessor view is entry `i` of the column. -/
theorem shiftO_getElem_succ {β : Type} (xs : List β) (i : ℕ)
    (h : i + 1 < xs.length) : (shiftO xs)[i + 1]? = (xs[i]?).map some := by
  cases xs with
  | nil => simp at h
  | cons x xs =>
    show (none :: ((x :: xs).dropLast.map some))[i + 1]? = _
    rw [List.getElem?_cons_succ, List.getElem?_map, List.dropLast_eq_take,
      List.getElem?_take_of_lt]
    simp only [List.length_cons] at h ⊢
    omega

/-- Elapsed minutes at row `i + 1` between two known consecutive timestamps. -/
theorem dtMinutes_getElem_succ {α : Type} [LinearOrderedField α] (ts : List ℤ)
    (i : ℕ) (t p : ℤ) (h1 : ts[i + 1]? = some t) (h0 : ts[i]? = some p) :
    (dtMinutes ts : List (FVal α))[i + 1]?
      = some (FVal.num (((t - p : ℤ) : α) / 60)) := by
  have hl : i + 1 < ts.length := by
    rcases List.getElem?_eq_some.mp h1 with ⟨h, -⟩
    exact h
  rw [dtMinutes, List.getElem?_zipWith', h1, shiftO_getElem_succ ts i hl, h0]
  rfl

/-- Delta column entry at row `i + 1` from two known consecutive cells. -/
theorem delta_getElem_succ {α : Type} [LinearOrderedField α]
    (vals : List (FVal α)) (i : ℕ) (a b : FVal α)
    (hv1 : vals[i + 1]? = some a) (hv0 : vals[i]? = some b) :
    (List.zipWith FVal.sub vals (shift1 vals))[i + 1]? = some (FVal.sub a b) := by
  have hl : i + 1 < vals.length := by
    rcases List.getElem?_eq_some.mp hv1 with ⟨h, -⟩
    exact h
  rw [List.getElem?_zipWith', hv1, shift1_getElem_succ vals i hl, hv0]
  rfl

/-- The value a rate feature takes when the elapsed time is zero minutes and
the delta is `d`: the float quotient `d / 0.0` is NaN for `d = 0` (then
filled with `0` by `fillna(0)`) and an infinity of the sign of `d`
otherwise (not touched by `fillna(0)`). -/
def zeroMinuteRate {α : Type} [LinearOrderedField α] (d : α) : FVal α :=
  if d = 0 then FVal.num 0 else if 0 < d then FVal.inf else FVal.ninf

/-- A rate column entry at a row whose timestamp repeats the previous one:
the delta is divided by zero minutes, so after `fillna(0)` the entry is `0`
exactly when the delta is zero and an infinity of the delta's sign
otherwise. -/
theorem rate_entry_zero_dt {α : Type} [LinearOrderedField α]
    (vals : List (FVal α)) (ts : List ℤ) (i : ℕ) (t : ℤ) (a b : α)
    (hv1 : vals[i + 1]? = some (FVal.num a)) (hv0 : vals[i]? = some (FVal.num b))
    (ht1 : ts[i + 1]? = some t) (ht0 : ts[i]? = some t) :
    (fillna0 (List.zipWith FVal.div (List.zipWith FVal.sub vals (shift1 vals))
        (dtMinutes ts)))[i + 1]?
      = some (zeroMinuteRate (a - b)) := by
  rw [fillna0, List.getElem?_map, List.getElem?_zipWith',
    delta_getElem_succ vals i _ _ hv1 hv0, dtMinutes_getElem_succ ts i t t ht1 ht0]
  have hz : ((t - t : ℤ) : α) / 60 = 0 := by simp
  rw [hz]
  by_cases h0 : a - b = 0
  · simp [FVal.sub, FVal.div, zeroMinuteRate, h0]
  · by_cases hpos : 0 < a - b
    · simp [FVal.sub, FVal.div, zeroMinuteRate, h0, hpos]
    · simp [FVal.sub, FVal.div, zeroMinuteRate, h0, hpos]

/-! ### C1: rate features on identical consecutive timestamps -/

/-- C1 (counterexample): in a two-row batch whose two timestamps are
identical and whose CO2 delta is `50 ≠ 0`, the engineered `co2_rate` of the
later reading is `+∞`, not `0.0`: the only guard in the code, `fillna(0)`,
replaces the NaN of `0.0 / 0.0` but not the infinity of `50.0 / 0.0`. -/
theorem rate_inf_on_identical_timestamps_counterexample :
    (engineer_features (DataFrame.mk [0, 0] [FVal.num 0, FVal.num 0]
        [FVal.num 0, FVal.num 0] [FVal.num 0, FVal.num 0]
        [FVal.num 400, FVal.num 450]
        ([FVal.num 0, FVal.num 0] : List (FVal ℚ)))).co2_rate
      = [FVal.num 0, FVal.inf]
    ∧ FVal.inf ≠ (FVal.num (0 : ℚ)) := by
  constructor
  · simp [engineer_features, dtMinutes, shiftO, shift1, fillna0, FVal.sub, FVal.div]
    norm_num
  · simp

/-- C1 (amended): in a batch in which two consecutive readings have
identical timestamps, a rate feature at the later reading resolves to `0.0`
exactly when the corresponding delta is zero (the NaN of `0/0` is filled);
when the delta is non-zero the rate is `+∞` or `-∞` of the delta's sign —
never an error, but not `0.0`. -/
theorem rate_on_identical_timestamps {α : Type} [LinearOrderedField α]
    (df : DataFrame α) (i : ℕ) (tm : ℤ) (c1 c0 l1 l0 r1 r0 p1 p0 : α)
    (htm1 : df.datetime[i + 1]? = some tm) (htm0 : df.datetime[i]? = some tm)
    (hc1 : df.CO2[i + 1]? = some (FVal.num c1))
    (hc0 : df.CO2[i]? = some (FVal.num c0))
    (hl1 : df.Light[i + 1]? = some (FVal.num l1))
    (hl0 : df.Light[i]? = some (FVal.num l0))
    (hr1 : df.HumidityRatio[i + 1]? = some (FVal.num r1))
    (hr0 : df.HumidityRatio[i]? = some (FVal.num r0))
    (hp1 : df.Temperature[i + 1]? = some (FVal.num p1))
    (hp0 : df.Temperature[i]? = some (FVal.num p0)) :
    (engineer_features df).co2_rate[i + 1]? = some (zeroMinuteRate (c1 - c0)) ∧
    (engineer_features df).light_rate[i + 1]? = some (zeroMinuteRate (l1 - l0)) ∧
    (engineer_features df).hr_rate[i + 1]? = some (zeroMinuteRate (r1 - r0)) ∧
    (engineer_features df).temp_rate[i + 1]? = some (zeroMinuteRate (p1 - p0)) :=
  ⟨rate_entry_zero_dt df.CO2 df.datetime i tm c1 c0 hc1 hc0 htm1 htm0,
   rate_entry_zero_dt df.Light df.datetime i tm l1 l0 hl1 hl0 htm1 htm0,
   rate_entry_zero_dt df.HumidityRatio df.datetime i tm r1 r0 hr1 hr0 htm1 htm0,
   rate_entry_zero_dt df.Temperature df.datetime i tm p1 p0 hp1 hp0 htm1 htm0⟩

/-- C1 (witness): the amended statement applied to a concrete two-row batch
with identical timestamps. -/
theorem rate_on_identical_timestamps_witness :
    (engineer_features (DataFrame.mk [0, 0] [FVal.num 1, FVal.num 2]
        [FVal.num 0, FVal.num 0] [FVal.num 3, FVal.num 3]
        [FVal.num 400, FVal.num 450]
        ([FVal.num 5, FVal.num 4] : List (FVal ℚ)))).co2_rate[1]?
      = some (zeroMinuteRate ((450 : ℚ) - 400)) ∧
    (engineer_features (DataFrame.mk [0, 0] [FVal.num 1, FVal.num 2]
        [FVal.num 0, FVal.num 0] [FVal.num 3, FVal.num 3]
        [FVal.num 400, FVal.num 450]
        ([FVal.num 5, FVal.num 4] : List (FVal ℚ)))).light_rate[1]?
      = some (zeroMinuteRate ((3 : ℚ) - 3)) ∧
    (engineer_features (DataFrame.mk [0, 0] [FVal.num 1, FVal.num 2]
        [FVal.num 0, FVal.num 0] [FVal.num 3, FVal.num 3]
        [FVal.num 400, FVal.num 450]
        ([FVal.num 5, FVal.num 4] : List (FVal ℚ)))).hr_rate[1]?
      = some (zeroMinuteRate ((4 : ℚ) - 5)) ∧
    (engineer_features (DataFrame.mk [0, 0] [FVal.num 1, FVal.num 2]
        [FVal.num 0, FVal.num 0] [FVal.num 3, FVal.num 3]
        [FVal.num 400, FVal.num 450]
        ([FVal.num 5, FVal.num 4] : List (FVal ℚ)))).temp_rate[1]?
      = some (zeroMinuteRate ((2 : ℚ) - 1)) :=
  rate_on_identical_timestamps _ 0 0 450 400 3 3 4 5 2 1
    rfl rfl rfl rfl rfl rfl rfl rfl rfl rfl

/-! ### C2: single-row input -/

/-- C2: for a single-row input (no preceding observation), all eight delta
and rate features are exactly `0.0`: the shifted predecessors are NaN, so
every delta is NaN, every rate is NaN, and `fillna(0)` turns each into `0`;
no null survives and no error is raised. -/
theorem single_row_all_deltas_rates_zero {α : Type} [LinearOrderedField α]
    (t : ℤ) (te hu li co hr : FVal α) :
    (engineer_features (DataFrame.mk [t] [te] [hu] [li] [co] [hr])).co2_delta
      = [FVal.num 0] ∧
    (engineer_features (DataFrame.mk [t] [te] [hu] [li] [co] [hr])).light_delta
      = [FVal.num 0] ∧
    (engineer_features (DataFrame.mk [t] [te] [hu] [li] [co] [hr])).hr_delta
      = [FVal.num 0] ∧
    (engineer_features (DataFrame.mk [t] [te] [hu] [li] [co] [hr])).temp_delta
      = [FVal.num 0] ∧
    (engineer_features (DataFrame.mk [t] [te] [hu] [li] [co] [hr])).co2_rate
      = [FVal.num 0] ∧
    (engineer_features (DataFrame.mk [t] [te] [hu] [li] [co] [hr])).light_rate
      = [FVal.num 0] ∧
    (engineer_features (DataFrame.mk [t] [te] [hu] [li] [co] [hr])).hr_rate
      = [FVal.num 0] ∧
    (engineer_features (DataFrame.mk [t] [te] [hu] [li] [co] [hr])).temp_rate
      = [FVal.num 0] := by
  refine ⟨?_, ?_, ?_, ?_, ?_, ?_, ?_, ?_⟩ <;>
    simp [engineer_features, shift1, dtMinutes, shiftO, fillna0,
      FVal.sub_nan, FVal.div_nan]

/-! ### C4: closed form of the CO2 normalization -/

/-- C4: for every positive CO2 and every lambda, the CO2 normalization is
the BoxCox power transform: `(co2 ^ lam - 1) / lam` for `lam ≠ 0` and
`ln co2` for `lam = 0`; the implementation's `expm1(lam * log co2) / lam`
agrees with the power form on positive inputs. -/
theorem boxcox_closed_form (co2 lam : ℝ) (h : 0 < co2) :
    boxcoxF lam (FVal.num co2)
      = FVal.num (if lam = 0 then Real.log co2 else (co2 ^ lam - 1) / lam) := by
  have h1 : ¬ co2 < 0 := not_lt.mpr h.le
  have h2 : co2 ≠ 0 := ne_of_gt h
  simp only [boxcoxF, h1, h2, if_false, boxcox]
  by_cases hlam : lam = 0
  · simp [hlam]
  · simp only [hlam, if_false]
    rw [Real.rpow_def_of_pos h, mul_comm (Real.log co2) lam]

/-- C4 (witness): the closed form evaluated at `co2 = 1`, `lam = 0`. -/
theorem boxcox_closed_form_witness :
    (0 : ℝ) < 1 ∧ boxcoxF 0 (FVal.num 1)
      = FVal.num (if (0 : ℝ) = 0 then Real.log 1 else ((1 : ℝ) ^ (0 : ℝ) - 1) / 0) :=
  ⟨by norm_num, boxcox_closed_form 1 0 (by norm_num)⟩

/-! ### C8: monotonicity of the CO2 normalization -/

/-- C8: for every fixed lambda and positive inputs `a ≤ b`, the BoxCox
normalization is monotone: `boxcox a lam ≤ boxcox b lam`. -/
theorem boxcox_monotone (lam a b : ℝ) (ha : 0 < a) (hab : a ≤ b) :
    boxcox a lam ≤ boxcox b lam := by
  have hlog : Real.log a ≤ Real.log b := Real.log_le_log ha hab
  unfold boxcox
  by_cases hlam : lam = 0
  · simpa [hlam] using hlog
  · simp only [hlam, if_false]
    rcases lt_or_gt_of_ne hlam with hneg | hpos
    · refine (div_le_div_right_of_neg hneg).mpr ?_
      exact sub_le_sub_right
        (Real.exp_le_exp.mpr (mul_le_mul_of_nonpos_left hlog hneg.le)) 1
    · refine (div_le_div_iff_of_pos_right hpos).mpr ?_
      exact sub_le_sub_right
        (Real.exp_le_exp.mpr (mul_le_mul_of_nonneg_left hlog hpos.le)) 1

/-- C8 (witness): monotonicity applied at `a = 1`, `b = 2`, `lam = 0`. -/
theorem boxcox_monotone_witness :
    (0 : ℝ) < 1 ∧ (1 : ℝ) ≤ 2 ∧ boxcox 1 0 ≤ boxcox 2 0 :=
  ⟨by norm_num, by norm_num, boxcox_monotone 0 1 2 (by norm_num) (by norm_num)⟩

/-! ### C5: non-positive CO2 -/

/-- C5 (counterexample): at inference time the trained lambda is always
supplied, so `scipy.stats.boxcox` dispatches to the `scipy.special.boxcox`
ufunc before any input validation runs; with `lam = 2` the non-positive
reading `co2 = 0` produces the finite numeric value `-1/2` — no
`InvalidInputError`, no exception at all — refuting "never returns a numeric
result for non-positive CO2". -/
theorem nonpositive_co2_numeric_counterexample :
    (transform_co2 (DataFrame.mk [0] [FVal.num 23] [FVal.num 27] [FVal.num 426]
        [FVal.num 0] [FVal.num 1]) 2).CO2 = [FVal.num (-1 / 2)] := by
  simp only [transform_co2, List.map_cons, List.map_nil, boxcoxF]
  norm_num

/-- C5 (amended): for non-positive CO2 the inference-path normalization does
not raise: a negative reading maps to NaN and a zero reading maps to the
finite value `-1/lam` when `lam > 0` and to `-∞` otherwise; the result then
flows on into the feature pipeline. -/
theorem boxcox_nonpositive_no_error (lam x : ℝ) (hx : x ≤ 0) :
    boxcoxF lam (FVal.num x)
      = (if x < 0 then FVal.nan
          else if 0 < lam then FVal.num (-1 / lam) else FVal.ninf) := by
  rcases lt_or_eq_of_le hx with hlt | heq
  · simp [boxcoxF, hlt]
  · simp [boxcoxF, heq, lt_irrefl]

/-- C5 (witness): the amended statement applied at `x = -1`, `lam = 2`. -/
theorem boxcox_nonpositive_no_error_witness :
    (-1 : ℝ) ≤ 0 ∧ boxcoxF 2 (FVal.num (-1))
      = (if (-1 : ℝ) < 0 then FVal.nan
          else if (0 : ℝ) < 2 then FVal.num (-1 / 2) else FVal.ninf) :=
  ⟨by norm_num, boxcox_nonpositive_no_error 2 (-1) (by norm_num)⟩

/-! ### C3: which columns feed the delta features -/

/-- C3 (counterexample): with trained lambda `2`, raw CO2 readings `20` then
`30` and `300` seconds between them, the pipeline's `co2_delta` at the
second row is `250` — the difference of the BoxCox-transformed values
`(30² - 1)/2 - (20² - 1)/2` — while the raw difference is `30 - 20 = 10`:
`transform_co2` overwrites the `CO2` column in place before
`engineer_features` runs, so the deltas are not computed from raw CO2. -/
theorem delta_from_transformed_co2_counterexample :
    (pipeline_transform (Model.mk 2 [100] (fun _ => 0) none)
        (DataFrame.mk [0, 300] [FVal.num 0, FVal.num 0] [FVal.num 0, FVal.num 0]
          [FVal.num 50, FVal.num 200] [FVal.num 20, FVal.num 30]
          [FVal.num 1, FVal.num 1])).co2_delta[1]?
      = some (FVal.num 250)
    ∧ (30 : ℝ) - 20 = 10 ∧ (250 : ℝ) ≠ 10 := by
  have h20 : Real.exp (2 * Real.log 20) = 400 := by
    rw [show (2 : ℝ) * Real.log 20 = Real.log (20 ^ (2 : ℕ)) by
      rw [Real.log_pow]; norm_num]
    rw [Real.exp_log] <;> norm_num
  have h30 : Real.exp (2 * Real.log 30) = 900 := by
    rw [show (2 : ℝ) * Real.log 30 = Real.log (30 ^ (2 : ℕ)) by
      rw [Real.log_pow]; norm_num]
    rw [Real.exp_log] <;> norm_num
  refine ⟨?_, by norm_num, by norm_num⟩
  norm_num [pipeline_transform, transform_co2, discretize_light, engineer_features,
    shift1, dtMinutes, shiftO, fillna0, boxcoxF, boxcox, FVal.sub, h20, h30]

/-- A delta column entry after `fillna(0)`, from two known consecutive
finite cells. -/
theorem delta_fill_getElem_succ {α : Type} [LinearOrderedField α]
    (vals : List (FVal α)) (i : ℕ) (a b : α)
    (hv1 : vals[i + 1]? = some (FVal.num a)) (hv0 : vals[i]? = some (FVal.num b)) :
    (fillna0 (List.zipWith FVal.sub vals (shift1 vals)))[i + 1]?
      = some (FVal.num (a - b)) := by
  rw [fillna0, List.getElem?_map, delta_getElem_succ vals i _ _ hv1 hv0]
  rfl

/-- A rate column entry after `fillna(0)`, from two known consecutive finite
cells and timestamps: the delta of the column as the rate stage sees it is
divided by the elapsed minutes; identical timestamps give the zero-minute
value, distinct ones the plain quotient. -/
theorem rate_entry_getElem_succ {α : Type} [LinearOrderedField α]
    (vals : List (FVal α)) (ts : List ℤ) (i : ℕ) (t1 t0 : ℤ) (a b : α)
    (hv1 : vals[i + 1]? = some (FVal.num a)) (hv0 : vals[i]? = some (FVal.num b))
    (ht1 : ts[i + 1]? = some t1) (ht0 : ts[i]? = some t0) :
    (fillna0 (List.zipWith FVal.div (List.zipWith FVal.sub vals (shift1 vals))
        (dtMinutes ts)))[i + 1]?
      = some (if t1 = t0 then zeroMinuteRate (a - b)
          else FVal.num ((a - b) / (((t1 - t0 : ℤ) : α) / 60))) := by
  by_cases ht : t1 = t0
  · subst ht
    rw [rate_entry_zero_dt vals ts i t1 a b hv1 hv0 ht1 ht0]
    simp
  · rw [fillna0, List.getElem?_map, List.getElem?_zipWith',
      delta_getElem_succ vals i _ _ hv1 hv0, dtMinutes_getElem_succ ts i t1 t0 ht1 ht0]
    have hm : ((t1 : α) - (t0 : α)) ≠ 0 := by
      refine sub_ne_zero.mpr ?_
      exact_mod_cast ht
    simp [FVal.sub, FVal.div, hm, ht]

/-- C3 (amended): in every multi-row batch, at every row with a predecessor,
the delta and rate features for CO2 and light are computed from the columns
as they stand after the earlier pipeline stages — `co2_delta` is the
difference of the BoxCox-transformed CO2 values, `light_delta` the
difference of the light bin indices, and the two rate features divide these
transformed-column deltas by the elapsed minutes — because `TransformCO2`
and `DiscretizeLight` overwrite the `CO2` and `Light` columns in place
before `FeatureEngineer` runs (the same order used at training time). -/
theorem delta_reads_transformed_columns (m : Model) (df : DataFrame ℝ) (i : ℕ)
    (t1 t0 : ℤ) (c1 c0 l1 l0 : ℝ)
    (htm1 : df.datetime[i + 1]? = some t1) (htm0 : df.datetime[i]? = some t0)
    (hc1 : df.CO2[i + 1]? = some (FVal.num c1))
    (hc0 : df.CO2[i]? = some (FVal.num c0))
    (hl1 : df.Light[i + 1]? = some (FVal.num l1))
    (hl0 : df.Light[i]? = some (FVal.num l0))
    (hc1p : 0 < c1) (hc0p : 0 < c0) :
    (pipeline_transform m df).co2_delta[i + 1]?
      = some (FVal.num (boxcox c1 m.lambda - boxcox c0 m.lambda)) ∧
    (pipeline_transform m df).light_delta[i + 1]?
      = some (FVal.num ((discretize l1 m.bin_edges : ℝ)
          - (discretize l0 m.bin_edges : ℝ))) ∧
    (pipeline_transform m df).co2_rate[i + 1]?
      = some (if t1 = t0
          then zeroMinuteRate (boxcox c1 m.lambda - boxcox c0 m.lambda)
          else FVal.num ((boxcox c1 m.lambda - boxcox c0 m.lambda)
            / (((t1 - t0 : ℤ) : ℝ) / 60))) ∧
    (pipeline_transform m df).light_rate[i + 1]?
      = some (if t1 = t0
          then zeroMinuteRate ((discretize l1 m.bin_edges : ℝ)
            - (discretize l0 m.bin_edges : ℝ))
          else FVal.num (((discretize l1 m.bin_edges : ℝ)
            - (discretize l0 m.bin_edges : ℝ)) / (((t1 - t0 : ℤ) : ℝ) / 60))) := by
  have hco2_1 : (discretize_light m.bin_edges (transform_co2 df m.lambda)).CO2[i + 1]?
      = some (FVal.num (boxcox c1 m.lambda)) := by
    simp only [discretize_light, transform_co2, List.getElem?_map, hc1, Option.map_some']
    simp [boxcoxF, not_lt.mpr hc1p.le, ne_of_gt hc1p]
  have hco2_0 : (discretize_light m.bin_edges (transform_co2 df m.lambda)).CO2[i]?
      = some (FVal.num (boxcox c0 m.lambda)) := by
    simp only [discretize_light, transform_co2, List.getElem?_map, hc0, Option.map_some']
    simp [boxcoxF, not_lt.mpr hc0p.le, ne_of_gt hc0p]
  have hli_1 : (discretize_light m.bin_edges (transform_co2 df m.lambda)).Light[i + 1]?
      = some (FVal.num ((discretize l1 m.bin_edges : ℝ))) := by
    simp only [discretize_light, transform_co2, List.getElem?_map, hl1, Option.map_some']
  have hli_0 : (discretize_light m.bin_edges (transform_co2 df m.lambda)).Light[i]?
      = some (FVal.num ((discretize l0 m.bin_edges : ℝ))) := by
    simp only [discretize_light, transform_co2, List.getElem?_map, hl0, Option.map_some']
  exact ⟨delta_fill_getElem_succ _ i _ _ hco2_1 hco2_0,
    delta_fill_getElem_succ _ i _ _ hli_1 hli_0,
    rate_entry_getElem_succ _ df.datetime i t1 t0 _ _ hco2_1 hco2_0 htm1 htm0,
    rate_entry_getElem_succ _ df.datetime i t1 t0 _ _ hli_1 hli_0 htm1 htm0⟩

/-- C3 (witness): the amended statement applied to a concrete two-row batch
(raw CO2 20 then 30, raw light 50 then 200, 300 seconds apart) and concrete
frozen parameters (lambda 2, one interior edge at 100). -/
theorem delta_reads_transformed_columns_witness :
    (0 : ℝ) < 30 ∧ (0 : ℝ) < 20 ∧
    ((pipeline_transform (Model.mk 2 [100] (fun _ => 0) none)
        (DataFrame.mk [0, 300] [FVal.num 0, FVal.num 0] [FVal.num 0, FVal.num 0]
          [FVal.num 50, FVal.num 200] [FVal.num 20, FVal.num 30]
          [FVal.num 1, FVal.num 1])).co2_delta[1]?
      = some (FVal.num (boxcox 30 2 - boxcox 20 2)) ∧
    (pipeline_transform (Model.mk 2 [100] (fun _ => 0) none)
        (DataFrame.mk [0, 300] [FVal.num 0, FVal.num 0] [FVal.num 0, FVal.num 0]
          [FVal.num 50, FVal.num 200] [FVal.num 20, FVal.num 30]
          [FVal.num 1, FVal.num 1])).light_delta[1]?
      = some (FVal.num ((discretize (200 : ℝ) [100] : ℝ)
          - (discretize (50 : ℝ) [100] : ℝ))) ∧
    (pipeline_transform (Model.mk 2 [100] (fun _ => 0) none)
        (DataFrame.mk [0, 300] [FVal.num 0, FVal.num 0] [FVal.num 0, FVal.num 0]
          [FVal.num 50, FVal.num 200] [FVal.num 20, FVal.num 30]
          [FVal.num 1, FVal.num 1])).co2_rate[1]?
      = some (if (300 : ℤ) = 0 then zeroMinuteRate (boxcox 30 2 - boxcox 20 2)
          else FVal.num ((boxcox 30 2 - boxcox 20 2)
            / (((300 - 0 : ℤ) : ℝ) / 60))) ∧
    (pipeline_transform (Model.mk 2 [100] (fun _ => 0) none)
        (DataFrame.mk [0, 300] [FVal.num 0, FVal.num 0] [FVal.num 0, FVal.num 0]
          [FVal.num 50, FVal.num 200] [FVal.num 20, FVal.num 30]
          [FVal.num 1, FVal.num 1])).light_rate[1]?
      = some (if (300 : ℤ) = 0 then
            zeroMinuteRate ((discretize (200 : ℝ) [100] : ℝ)
              - (discretize (50 : ℝ) [100] : ℝ))
          else FVal.num (((discretize (200 : ℝ) [100] : ℝ)
            - (discretize (50 : ℝ) [100] : ℝ)) / (((300 - 0 : ℤ) : ℝ) / 60)))) :=
  ⟨by norm_num, by norm_num,
    delta_reads_transformed_columns (Model.mk 2 [100] (fun _ => 0) none)
      (DataFrame.mk [0, 300] [FVal.num 0, FVal.num 0] [FVal.num 0, FVal.num 0]
        [FVal.num 50, FVal.num 200] [FVal.num 20, FVal.num 30]
        [FVal.num 1, FVal.num 1])
      0 300 0 30 20 200 50 rfl rfl rfl rfl rfl rfl (by norm_num) (by norm_num)⟩

/-! ### C7: totality and range of the light discretization -/

/-- C7 (counterexample): at a light value equal to a bin boundary the
returned index is the count of edges less than OR EQUAL to the value
(`searchsorted(..., side='right')`), not the count of edges strictly less
than it: with edges `[10, 20]` and light `10` the code returns bin `1`
while the strict count is `0`. -/
theorem discretize_strict_count_counterexample :
    discretize (10 : ℚ) [10, 20] = 1 ∧
    List.countP (fun e => decide (e < (10 : ℚ))) [10, 20] = 0 ∧
    (1 : ℕ) ≠ 0 := by
  refine ⟨by decide, by decide, by norm_num⟩

/-- C7 (amended): for every real light value and strictly increasing edges,
`discretize` is total and returns the count of edges less than or equal to
the value — an index in `[0, len(edges)]`, never out of range and never an
error; the prefix of edges up to the index is `≤ light` and every edge past
it is `> light` (right-open bins), so out-of-training-range values map to
the boundary bins `0` and `len(edges)`. -/
theorem discretize_total_bins (light : ℚ) (edges : List ℚ)
    (hs : List.Sorted (· < ·) edges) :
    discretize light edges ≤ edges.length ∧
    (∀ e ∈ edges.take (discretize light edges), e ≤ light) ∧
    (∀ e ∈ edges.drop (discretize light edges), light < e) := by
  induction edges with
  | nil => simp [discretize]
  | cons e rest ih =>
    rcases List.sorted_cons.mp hs with ⟨he, hrest⟩
    rcases ih hrest with ⟨ihlen, ihtake, ihdrop⟩
    by_cases hel : e ≤ light
    · have hcount : discretize light (e :: rest) = discretize light rest + 1 := by
        simp [discretize, List.countP_cons, hel]
      refine ⟨?_, ?_, ?_⟩
      · simp only [hcount, List.length_cons]
        omega
      · rw [hcount, List.take_succ_cons]
        intro f hf
        rcases List.mem_cons.mp hf with h | h
        · exact h ▸ hel
        · exact ihtake f h
      · rw [hcount, List.drop_succ_cons]
        exact ihdrop
    · have hr : discretize light rest = 0 := by
        rw [discretize, List.countP_eq_zero]
        intro x hx
        simp only [decide_eq_true_eq, not_le]
        exact lt_trans (not_le.mp hel) (he x hx)
      have hzero : discretize light (e :: rest) = 0 := by
        rw [discretize, List.countP_cons]
        rw [discretize] at hr
        simp [hr, hel]
      refine ⟨by simp [hzero], by simp [hzero], ?_⟩
      rw [hzero, List.drop_zero]
      intro f hf
      rcases List.mem_cons.mp hf with h | h
      · exact h ▸ not_le.mp hel
      · exact lt_trans (not_le.mp hel) (he f h)

/-- C7 (witness): the amended statement applied to concrete sorted edges. -/
theorem discretize_total_bins_witness :
    List.Sorted (· < ·) ([10, 20] : List ℚ) ∧
    discretize (15 : ℚ) [10, 20] ≤ ([10, 20] : List ℚ).length :=
  ⟨by decide, (discretize_total_bins 15 [10, 20] (by decide)).1⟩

/-! ### C6 and C10: input validation -/

/-- Validation succeeds exactly when every required field is a key of the
request dict. -/
theorem validate_input_ok_iff (d : PyDict) :
    validate_input d = Except.ok true ↔ ∀ f ∈ required_fields, f ∈ dictKeys d := by
  have hnil : (required_fields.filter (fun f => decide (f ∉ dictKeys d)) = [])
      ↔ ∀ f ∈ required_fields, f ∈ dictKeys d := by
    rw [List.filter_eq_nil_iff]
    simp
  simp only [validate_input]
  split
  · rename_i h
    exact iff_of_true rfl (hnil.mp h)
  · rename_i h
    exact iff_of_false (by simp) fun hall => h (hnil.mpr hall)

/-- When validation fails, the reported list holds exactly the required
fields absent from the dict. -/
theorem validate_input_error_iff (d : PyDict) (missing : List String)
    (h : validate_input d = Except.error missing) :
    ∀ f, f ∈ missing ↔ (f ∈ required_fields ∧ f ∉ dictKeys d) := by
  intro f
  simp only [validate_input] at h
  split at h
  · exact absurd h (by simp)
  · injection h with h'
    rw [← h', List.mem_filter]
    simp

/-- C6: validation succeeds exactly when all six required fields
(`datetime`, `Temperature`, `Humidity`, `Light`, `CO2`, `HumidityRatio`)
are present, and a failure carries exactly the missing field names. -/
theorem validate_input_reports_missing (d : PyDict) :
    (validate_input d = Except.ok true ↔ ∀ f ∈ required_fields, f ∈ dictKeys d) ∧
    ∀ missing, validate_input d = Except.error missing →
      ∀ f, f ∈ missing ↔ (f ∈ required_fields ∧ f ∉ dictKeys d) :=
  ⟨validate_input_ok_iff d, fun missing h => validate_input_error_iff d missing h⟩

/-- C6 (witness): a request lacking `CO2` and `HumidityRatio` fails with
exactly `["CO2", "HumidityRatio"]`, and the theorem instantiated at that
request and at the field `CO2` characterizes the reported list. -/
theorem validate_input_reports_missing_witness :
    validate_input [("datetime", PyVal.str "2015-02-04 17:51:00"),
        ("Temperature", PyVal.num 23), ("Humidity", PyVal.num 27),
        ("Light", PyVal.num 426)]
      = Except.error ["CO2", "HumidityRatio"] ∧
    ("CO2" ∈ (["CO2", "HumidityRatio"] : List String) ↔
      ("CO2" ∈ required_fields ∧
        "CO2" ∉ dictKeys [("datetime", PyVal.str "2015-02-04 17:51:00"),
          ("Temperature", PyVal.num 23), ("Humidity", PyVal.num 27),
          ("Light", PyVal.num 426)])) :=
  ⟨rfl,
    (validate_input_reports_missing [("datetime", PyVal.str "2015-02-04 17:51:00"),
        ("Temperature", PyVal.num 23), ("Humidity", PyVal.num 27),
        ("Light", PyVal.num 426)]).2 ["CO2", "HumidityRatio"] rfl "CO2"⟩

/-- C10: `validate_input` checks presence only, never values: any dict whose
keys include the six required fields validates to `True` whatever the
associated values, and the verdict depends on the dict only through its key
list. -/
theorem validate_input_presence_only :
    (∀ d : PyDict, (∀ f ∈ required_fields, f ∈ dictKeys d) →
      validate_input d = Except.ok true) ∧
    (∀ d e : PyDict, dictKeys d = dictKeys e →
      validate_input d = validate_input e) := by
  constructor
  · exact fun d h => (validate_input_ok_iff d).mpr h
  · intro d e h
    simp only [validate_input]
    rw [h]

/-- C10 (witness): a dict with all six keys but a null temperature, a null
humidity ratio, an unparseable timestamp string and a negative CO2 still
validates to `True`. -/
theorem validate_input_presence_only_witness :
    validate_input [("datetime", PyVal.str "not-a-date"),
        ("Temperature", PyVal.none), ("Humidity", PyVal.num 27),
        ("Light", PyVal.num (-5)), ("CO2", PyVal.num (-100)),
        ("HumidityRatio", PyVal.none)]
      = Except.ok true :=
  validate_input_presence_only.1 _ (by decide)

/-! ### C9: determinism of prediction -/

/-- C9: prediction is a deterministic function of the input field values and
the frozen model parameters: two calls whose six input fields coincide
return the same label and the same probability.  The embedding of
`OccupancyPredictor.predict` derived from the source threads no state at
all, so the result depends on nothing but `m` and the fields of the
input. -/
theorem predict_deterministic (m : Model) (x y : PredictInput)
    (h1 : x.datetime = y.datetime) (h2 : x.Temperature = y.Temperature)
    (h3 : x.Humidity = y.Humidity) (h4 : x.Light = y.Light)
    (h5 : x.CO2 = y.CO2) (h6 : x.HumidityRatio = y.HumidityRatio) :
    predict_occupancy m x = predict_occupancy m y := by
  have hxy : x = y := by
    cases x
    cases y
    simp_all
  rw [hxy]

/-- C9 (witness): determinism applied to two syntactically separate but
fieldwise identical readings of the spec's example request. -/
theorem predict_deterministic_witness :
    predict_occupancy (Model.mk 0 [] (fun _ => 1) none)
        (PredictInput.mk 0 23 27 426 721 1)
      = predict_occupancy (Model.mk 0 [] (fun _ => 1) none)
        (PredictInput.mk 0 23 27 426 721 1) :=
  predict_deterministic (Model.mk 0 [] (fun _ => 1) none)
    (PredictInput.mk 0 23 27 426 721 1) (PredictInput.mk 0 23 27 426 721 1)
    rfl rfl rfl rfl rfl rfl
